import Mathlib

/-!
# Smart Guard access-control gateway: a shallow embedding

This file embeds the event-processing pipeline of `src/main.py` (an MQTT +
Firebase access-control gateway) in Lean 4 and proves properties of it.

Python dynamic values that flow through the pipeline (decoded JSON payloads,
Firebase records) are modelled by the inductive type `Json`.  Python-specific
semantics are modelled explicitly and faithfully:

* `pyTruthy`   — Python truthiness (`if x:`);
* `pyIsInt`    — `isinstance(x, int)`; note Python's `bool` is a subclass of
  `int`, so booleans pass this check;
* `pyEqTrue`   — the Python comparison `x == True`, which also holds for the
  integer `1` (`True == 1` in Python);
* `pyIn`       — the Python `in` operator (`key in container`), which raises
  `TypeError` on non-container values; raising is modelled by `Except`;
* `pyIndex`    — subscription `container[key]` with a string key, which raises
  unless the container is a dict holding the key.

Store reads/writes and MQTT publishes that the Python code performs are
reified as an `Effect` trace, so frame conditions ("no attendance write
occurs", "no lookup is performed") are statements about the trace.
-/

/-- A decoded dynamic (JSON-like) value, as handled by the Python code. -/
inductive Json where
  | null : Json
  | bool : Bool → Json
  | int : Int → Json
  | str : String → Json
  | arr : List Json → Json
  | obj : List (String × Json) → Json

namespace Json

/-- Python truthiness of a value (`if x:`). -/
def pyTruthy : Json → Bool
  | .null => false
  | .bool b => b
  | .int n => n ≠ 0
  | .str s => s ≠ ""
  | .arr xs => ¬ xs.isEmpty
  | .obj kvs => ¬ kvs.isEmpty

/-- Python `isinstance(x, int)`.  `bool` is a subclass of `int` in Python,
so booleans pass this check. -/
def pyIsInt : Json → Bool
  | .int _ => true
  | .bool _ => true
  | _ => false

/-- Python `isinstance(x, str)`. -/
def pyIsStr : Json → Bool
  | .str _ => true
  | _ => false

/-- The Python comparison `x == True`: true for `True` itself and for the
number `1` (`1 == True` holds in Python). -/
def pyEqTrue : Json → Bool
  | .bool b => b
  | .int n => n = 1
  | _ => false

/-- Look up a key in an association list (first occurrence). -/
def lookupKey (kvs : List (String × Json)) (k : String) : Option Json :=
  match kvs.find? (fun kv => kv.1 = k) with
  | some kv => some kv.2
  | none => none

/-- Substring test, modelling Python's `needle in haystack` on strings.
The empty needle is found in every string. -/
def strContains (haystack needle : String) : Bool :=
  if needle = "" then true else (haystack.splitOn needle).length ≥ 2

/-- Whether a list of values contains the string `k`.  Python `==` between a
string and a value of any other type is `False`, so only `str` elements can
match. -/
def arrContainsStr (xs : List Json) (k : String) : Bool :=
  xs.any fun j => match j with | .str s => s = k | _ => false

/-- The Python `in` operator with a string left operand: key membership for
dicts, element equality for lists, substring test for strings; raises
`TypeError` (modelled by `Except.error`) on any non-container value. -/
def pyIn (k : String) : Json → Except Unit Bool
  | .obj kvs => .ok (lookupKey kvs k).isSome
  | .arr xs => .ok (arrContainsStr xs k)
  | .str s => .ok (strContains s k)
  | _ => .error ()

/-- Python subscription `x[k]` with a string key `k`: succeeds only on a dict
that holds the key; every other case raises (`KeyError` / `TypeError`). -/
def pyIndex (x : Json) (k : String) : Except Unit Json :=
  match x with
  | .obj kvs =>
      match lookupKey kvs k with
      | some v => .ok v
      | none => .error ()
  | _ => .error ()

/-- Python `x.get(k, d)` on a dict; raises (`AttributeError`) on non-dicts. -/
def pyDictGet (x : Json) (k : String) (d : Json) : Except Unit Json :=
  match x with
  | .obj kvs => .ok ((lookupKey kvs k).getD d)
  | _ => .error ()

/-- Python `str(x)` as used for path interpolation; compound values get a
simple representation (their exact rendering is irrelevant to the claims). -/
def pyStr : Json → String
  | .null => "None"
  | .bool b => if b then "True" else "False"
  | .int n => toString n
  | .str s => s
  | .arr _ => "[...]"
  | .obj _ => "{...}"

end Json

/-! ## Message validation (`validate_card_message`, `validate_fingerprint_message`)

The Python validators run inside `on_message`'s `try`; any exception they
raise (e.g. subscripting a non-dict payload whose `in` test passed) is caught
at the `on_message` level.  They are therefore modelled in `Except`. -/

/-- `validate_card_message` of `src/main.py`: requires `card_reader` and
`card_id` to be present, `card_reader` to satisfy `isinstance(_, int)` and
`card_id` to satisfy `isinstance(_, str)`. -/
def validate_card_message (data : Json) : Except Unit (Bool × String) := do
  let h₁ ← Json.pyIn "card_reader" data
  let h₂ ← Json.pyIn "card_id" data
  if ¬ (h₁ ∧ h₂) then
    return (false, "Missing required fields. Expected: [card_reader, card_id]")
  else
    let reader ← Json.pyIndex data "card_reader"
    if ¬ reader.pyIsInt then
      return (false, "card_reader must be an integer")
    else
      let cardId ← Json.pyIndex data "card_id"
      if ¬ cardId.pyIsStr then
        return (false, "card_id must be a string")
      else
        return (true, "Valid card message")

/-- `validate_fingerprint_message` of `src/main.py`: requires
`fingerprint_reader` and `fingerprint_id`, both `isinstance(_, int)`. -/
def validate_fingerprint_message (data : Json) : Except Unit (Bool × String) := do
  let h₁ ← Json.pyIn "fingerprint_reader" data
  let h₂ ← Json.pyIn "fingerprint_id" data
  if ¬ (h₁ ∧ h₂) then
    return (false, "Missing required fields. Expected: [fingerprint_reader, fingerprint_id]")
  else
    let reader ← Json.pyIndex data "fingerprint_reader"
    if ¬ reader.pyIsInt then
      return (false, "fingerprint_reader must be an integer")
    else
      let fid ← Json.pyIndex data "fingerprint_id"
      if ¬ fid.pyIsInt then
        return (false, "fingerprint_id must be an integer")
      else
        return (true, "Valid fingerprint message")

/-! ## The Firebase store and the effect trace

The Realtime Database paths the code touches are `users/students` (the
identity collection), `sessions/active` (the active-session pointer) and
`sessions/{key}` (individual sessions).  `Store` carries the value at each of
these roots plus error-injection flags: each flag makes the corresponding
`ref.get()` / `ref.set()` call raise, which the Python code catches in the
enclosing `try`. -/

/-- The state of the external Firebase store, plus error injection for each
read/write site of `src/main.py`. -/
structure Store where
  /-- the value stored at `users/students` (`Json.null` = absent) -/
  students : Json
  /-- the value stored at `sessions` (`Json.null` = absent);
  `sessions/active` and `sessions/{key}` are its children -/
  sessions : Json
  /-- `ref.get()` on `users/students...` raises -/
  studentsReadErr : Bool
  /-- `ref.get()` on `sessions/active` raises -/
  activeReadErr : Bool
  /-- `ref.get()` on `sessions/{key}` raises -/
  sessionReadErr : Bool
  /-- `ref.set(...)` on `sessions/{key}/attendance/{rfid}` raises -/
  attendanceWriteErr : Bool

/-- Value of a direct child of a Firebase node: key lookup on an object node,
absent (`null`) on every other node. -/
def Store.child (j : Json) (k : String) : Json :=
  match j with
  | .obj kvs => (Json.lookupKey kvs k).getD .null
  | _ => .null

/-- The attendance record written at `sessions/{key}/attendance/{rfid}`. -/
structure AttendanceEntry where
  method : String
  name : Json
  studentId : Json
  timeIn : String

/-- An observable side effect of one pipeline pass: an identity-store lookup,
an MQTT publish, or an attendance write. -/
inductive Effect where
  /-- a `ref.get()` on `users/students` or `users/students/{rfid}` -/
  | lookupStudents : Effect
  /-- `client.publish(topic, payload)` -/
  | publish : String → String → Effect
  /-- `ref.set(entry)` at `sessions/{key}/attendance/{rfid}` -/
  | setAttendance : String → String → AttendanceEntry → Effect

/-- Does a trace contain a publish? -/
def hasPublish (tr : List Effect) : Bool :=
  tr.any fun e => match e with | .publish _ _ => true | _ => false

/-- Does a trace contain an attendance write? -/
def hasAttendanceWrite (tr : List Effect) : Bool :=
  tr.any fun e => match e with | .setAttendance _ _ _ => true | _ => false

/-- Does a trace contain an identity-store lookup? -/
def hasLookup (tr : List Effect) : Bool :=
  tr.any fun e => match e with | .lookupStudents => true | _ => false

/-! ## Identity resolution (`check_student_by_rfid`, `check_student_by_fingerprint`) -/

/-- `check_student_by_rfid` of `src/main.py`: reads `users/students/{rfid}`
and returns `(found, student_data)`, where `found` is the Python truthiness
of the value read; a store error is caught and yields `(false, None)`.
The trace records the identity-store read. -/
def check_student_by_rfid (store : Store) (rfid : String) :
    List Effect × (Bool × Json) :=
  if store.studentsReadErr then ([.lookupStudents], (false, .null))
  else
    let sd := Store.child store.students rfid
    if sd.pyTruthy then ([.lookupStudents], (true, sd))
    else ([.lookupStudents], (false, .null))

/-- The body of the `for rfid, student_data in all_students.items()` loop of
`check_student_by_fingerprint`: scan the records in order, returning the
first one whose `fprints` mapping holds `str(fingerprint_id)` with a value
`== True`.  An exception raised while scanning (e.g. a record that is not a
dict) aborts the whole scan; `check_student_by_fingerprint` catches it. -/
def fingerprintScan (key : String) :
    List (String × Json) → Except Unit (Option (Json × String))
  | [] => .ok none
  | (rfid, sd) :: rest => do
      let hasFp ← Json.pyIn "fprints" sd
      if hasFp then
        let fprints ← Json.pyIndex sd "fprints"
        let hasKey ← Json.pyIn key fprints
        if hasKey then
          let v ← Json.pyIndex fprints key
          if v.pyEqTrue then return some (sd, rfid)
          else fingerprintScan key rest
        else fingerprintScan key rest
      else fingerprintScan key rest

/-- `check_student_by_fingerprint` of `src/main.py`: reads the whole
`users/students` collection and linearly scans it with `fingerprintScan`,
returning `(found, student_data, rfid)`.  A store error, a non-dict
collection (whose `.items()` raises) or an exception inside the loop is
caught and yields `(false, None, None)`. -/
def check_student_by_fingerprint (store : Store) (fid : Json) :
    List Effect × (Bool × Json × Option String) :=
  if store.studentsReadErr then ([.lookupStudents], (false, .null, none))
  else if ¬ store.students.pyTruthy then ([.lookupStudents], (false, .null, none))
  else
    match store.students with
    | .obj kvs =>
        match fingerprintScan fid.pyStr kvs with
        | .ok (some (sd, rfid)) => ([.lookupStudents], (true, sd, some rfid))
        | .ok none => ([.lookupStudents], (false, .null, none))
        | .error _ => ([.lookupStudents], (false, .null, none))
    | _ => ([.lookupStudents], (false, .null, none))

/-! ## Active session and attendance (`get_active_session`, `save_attendance`) -/

/-- `get_active_session` of `src/main.py`: reads `sessions/active`; when it
is truthy and `'firebaseKey' in` it, returns the `firebaseKey` value,
otherwise `None`.  Any exception (store error, a pointer value on which `in`
or subscription raises) is caught and yields `None`. -/
def get_active_session (store : Store) : Option Json :=
  if store.activeReadErr then none
  else
    let a := Store.child store.sessions "active"
    if a.pyTruthy then
      match Json.pyIn "firebaseKey" a with
      | .ok true =>
          match Json.pyIndex a "firebaseKey" with
          | .ok v => some v
          | .error _ => none
      | .ok false => none
      | .error _ => none
    else none

/-- Python `s.replace('Z', '+00:00')`: every occurrence of `Z` is replaced. -/
def zuluToOffset (s : String) : String :=
  String.intercalate "+00:00" (s.splitOn "Z")

/-- Python `int(x)` on a float/rational: truncation toward zero. -/
def pyInt (q : ℚ) : Int :=
  if 0 ≤ q then ⌊q⌋ else ⌈q⌉

/-- `save_attendance` of `src/main.py`.

`parse` is the semantics of `datetime.fromisoformat(_).timestamp()`
(epoch seconds, `none` = `ValueError`); `now` is `time.time()`.  Returns the
effect trace together with the boolean result.  All failure branches —
session absent/falsy, `'started'` missing, a malformed timestamp, a non-dict
session or student record, a store error — return `False` and write
nothing, matching the `return False` branches and the enclosing
`try/except` of the source. -/
def save_attendance (parse : String → Option ℚ) (now : ℚ) (store : Store)
    (firebase_key : Json) (rfid : String) (student_data : Json)
    (method : String) : List Effect × Bool :=
  if store.sessionReadErr then ([], false)
  else
    let session_data := Store.child store.sessions firebase_key.pyStr
    if ¬ session_data.pyTruthy then ([], false)
    else
      match Json.pyIn "started" session_data with
      | .error _ => ([], false)
      | .ok false => ([], false)
      | .ok true =>
          match Json.pyIndex session_data "started" with
          | .error _ => ([], false)
          | .ok started =>
              match started with
              | .str session_start_str =>
                  match parse (zuluToOffset session_start_str) with
                  | none => ([], false)
                  | some session_start =>
                      let session_start_ms := pyInt (session_start * 1000)
                      let current_time_ms := pyInt (now * 1000)
                      let time_in := toString (current_time_ms - session_start_ms)
                      match Json.pyDictGet student_data "name" (.str "Unknown"),
                            Json.pyDictGet student_data "student_id" (.str "Unknown") with
                      | .ok nm, .ok sid =>
                          if store.attendanceWriteErr then ([], false)
                          else
                            ([.setAttendance firebase_key.pyStr rfid
                                ⟨method, nm, sid, time_in⟩], true)
                      | _, _ => ([], false)
              | _ => ([], false)

/-! ## The router (`on_connect`, `on_message`) -/

/-- The `MQTT_TOPICS` configuration dict: logical names `card`,
`fingerprint`, `lock_open` mapped to topic strings, in insertion order. -/
structure Topics where
  card : String
  fingerprint : String
  lock_open : String

/-- The default topic strings of `src/main.py` (the values used when the
corresponding environment variables are unset). -/
def defaultTopics : Topics :=
  { card := "smartguard/verify/card"
    fingerprint := "smartguard/verify/fingerprint"
    lock_open := "smartguard/lock/open" }

/-- The topics `on_connect` subscribes to: the loop
`for topic_name, topic_path in MQTT_TOPICS.items(): client.subscribe(topic_path)`
iterates over **all** entries of `MQTT_TOPICS`, in insertion order. -/
def on_connect_subscribed (t : Topics) : List String :=
  [t.card, t.fingerprint, t.lock_open]

/-- How `on_message` dispatches on the topic string. -/
inductive Route where
  | card : Route
  | fingerprint : Route
  | unknownTopic : Route

/-- Topic dispatch of `on_message`: the `card` comparison comes first, then
`fingerprint`; everything else (the `lock_open` topic included) falls into
the `else` branch that prints `Unknown topic`. -/
def routeOf (t : Topics) (topic : String) : Route :=
  if topic = t.card then .card
  else if topic = t.fingerprint then .fingerprint
  else .unknownTopic

/-- The allow-branch tail shared by both branches of `on_message` (lines
239-254 and 294-309 of `src/main.py`): attempt the unlock publish; when it
reports success (`result.rc == 0`), resolve the active session and, when one
is found (truthy), save attendance. -/
def allowTail (t : Topics) (publishOk : Bool) (parse : String → Option ℚ)
    (now : ℚ) (store : Store) (rfid : String) (student_data : Json)
    (method : String) : List Effect :=
  Effect.publish t.lock_open "OK" ::
    (if publishOk then
      match get_active_session store with
      | some firebase_key =>
          if firebase_key.pyTruthy then
            (save_attendance parse now store firebase_key rfid student_data method).1
          else []
      | none => []
    else [])

/-- The card branch of `on_message` after successful validation (lines
219-261): display the fields, and — when the store is connected — resolve by
RFID; on a found record read its attributes (raising on a non-dict record,
caught by `on_message`), test `registered` truthiness and run the allow
tail. -/
def cardBranch (t : Topics) (firebase_connected publishOk : Bool)
    (parse : String → Option ℚ) (now : ℚ) (store : Store) (data : Json) :
    List Effect :=
  if firebase_connected then
    match Json.pyIndex data "card_id" with
    | .ok (.str card_id) =>
        match check_student_by_rfid store card_id with
        | (effs, (true, student_data)) =>
            match Json.pyDictGet student_data "name" (.str "N/A") with
            | .error _ => effs
            | .ok _ =>
                match Json.pyDictGet student_data "registered" (.bool false) with
                | .error _ => effs
                | .ok registered =>
                    if registered.pyTruthy then
                      effs ++ allowTail t publishOk parse now store card_id
                        student_data "RFID"
                    else effs
        | (effs, (false, _)) => effs
    | _ => []
  else []

/-- The fingerprint branch of `on_message` after successful validation
(lines 268-316): when the store is connected, resolve by fingerprint; on a
found record display its attributes, test `registered` truthiness and run
the allow tail with the record's credential key. -/
def fingerprintBranch (t : Topics) (firebase_connected publishOk : Bool)
    (parse : String → Option ℚ) (now : ℚ) (store : Store) (data : Json) :
    List Effect :=
  if firebase_connected then
    match Json.pyIndex data "fingerprint_id" with
    | .ok fid =>
        match check_student_by_fingerprint store fid with
        | (effs, (true, student_data, some rfid)) =>
            match Json.pyDictGet student_data "name" (.str "N/A") with
            | .error _ => effs
            | .ok _ =>
                match Json.pyDictGet student_data "registered" (.bool false) with
                | .error _ => effs
                | .ok registered =>
                    if registered.pyTruthy then
                      effs ++ allowTail t publishOk parse now store rfid
                        student_data "Fingerprint"
                    else effs
        | (effs, _) => effs
    | _ => []
  else []

/-- `on_message` of `src/main.py`, as the effect trace of one delivery.

`payload = none` models a JSON parse failure (`json.JSONDecodeError`,
terminal).  Topic dispatch follows `routeOf`; a failed validation or a
validator exception ends the pass with no effects. -/
def on_message (t : Topics) (firebase_connected publishOk : Bool)
    (parse : String → Option ℚ) (now : ℚ) (store : Store)
    (topic : String) (payload : Option Json) : List Effect :=
  match payload with
  | none => []
  | some data =>
      match routeOf t topic with
      | .card =>
          match validate_card_message data with
          | .ok (true, _) =>
              cardBranch t firebase_connected publishOk parse now store data
          | .ok (false, _) => []
          | .error _ => []
      | .fingerprint =>
          match validate_fingerprint_message data with
          | .ok (true, _) =>
              fingerprintBranch t firebase_connected publishOk parse now store data
          | .ok (false, _) => []
          | .error _ => []
      | .unknownTopic => []

/-! ## Derived predicates used by the statements -/

/-- Number of publishes in a trace. -/
def publishCount (tr : List Effect) : Nat :=
  (tr.filter fun e => match e with | .publish _ _ => true | _ => false).length

/-- Number of attendance writes in a trace. -/
def attendanceWriteCount (tr : List Effect) : Nat :=
  (tr.filter fun e => match e with | .setAttendance _ _ _ => true | _ => false).length

/-- `true` when no attendance write occurs before the first publish of the
trace (in particular when the trace has writes only after a publish). -/
def noWriteBeforePublish : List Effect → Bool
  | [] => true
  | .setAttendance _ _ _ :: _ => false
  | .publish _ _ :: _ => true
  | .lookupStudents :: rest => noWriteBeforePublish rest

/-- The entry of the first attendance write of a trace, if any. -/
def firstWrittenEntry : List Effect → Option AttendanceEntry
  | [] => none
  | .setAttendance _ _ e :: _ => some e
  | _ :: rest => firstWrittenEntry rest

/-- The access decision applied to a resolved (dict) identity record:
Python truthiness of `student_data.get('registered', False)`. -/
def access_allowed (student_data : Json) : Bool :=
  match Json.pyDictGet student_data "registered" (.bool false) with
  | .ok v => v.pyTruthy
  | .error _ => false

/-- The fingerprint-match condition of the scan loop, as a total predicate on
one record: the record is a dict whose `fprints` entry is a dict holding
`key` with a value `== True` in Python's sense. -/
def fpMatch (key : String) (sd : Json) : Bool :=
  match sd with
  | .obj kvs =>
      match Json.lookupKey kvs "fprints" with
      | some (.obj fp) =>
          match Json.lookupKey fp key with
          | some v => v.pyEqTrue
          | none => false
      | _ => false
  | _ => false

/-- `true` when scanning the record `sd` for fingerprint key `key` raises no
exception (the loop body of `check_student_by_fingerprint` can raise on
records or `fprints` values of unexpected shape). -/
def fpScanSafe (key : String) (sd : Json) : Bool :=
  match sd with
  | .obj kvs =>
      match Json.lookupKey kvs "fprints" with
      | none => true
      | some (.obj _) => true
      | some (.str s) => ¬ Json.strContains s key
      | some (.arr xs) => ¬ Json.arrContainsStr xs key
      | some _ => false
  | .str s => ¬ Json.strContains s "fprints"
  | .arr xs => ¬ Json.arrContainsStr xs "fprints"
  | _ => false

/-! ## Definitions taken from the specification text (for comparison)

These two definitions follow the spec's words, not the source; theorems
below compare them with the embedded source functions. -/

/-- From the spec: elapsed time is "(current wall-clock time − parsed start
time), floored to whole milliseconds" — the floor of the difference. -/
def specElapsedMs (now session_start : ℚ) : Int :=
  ⌊(now - session_start) * 1000⌋

/-- From the spec: a card payload is valid exactly when it has a
`card_reader` field holding an integer (a boolean is not an integer) and a
`card_id` field holding a string. -/
def specCardValid (data : Json) : Bool :=
  match data with
  | .obj kvs =>
      (match Json.lookupKey kvs "card_reader" with
       | some (.int _) => true
       | _ => false) &&
      (match Json.lookupKey kvs "card_id" with
       | some (.str _) => true
       | _ => false)
  | _ => false

/-! ## Helper lemmas on traces -/

theorem publishCount_nil : publishCount [] = 0 := rfl

theorem publishCount_cons_publish (a b : String) (tr : List Effect) :
    publishCount (.publish a b :: tr) = publishCount tr + 1 := by
  simp [publishCount, List.filter]

theorem publishCount_cons_lookup (tr : List Effect) :
    publishCount (.lookupStudents :: tr) = publishCount tr := by
  simp [publishCount, List.filter]

theorem publishCount_cons_set (k r : String) (e : AttendanceEntry)
    (tr : List Effect) :
    publishCount (.setAttendance k r e :: tr) = publishCount tr := by
  simp [publishCount, List.filter]

theorem publishCount_append (a b : List Effect) :
    publishCount (a ++ b) = publishCount a + publishCount b := by
  simp [publishCount, List.filter_append]

theorem hasAttendanceWrite_nil : hasAttendanceWrite [] = false := rfl

theorem hasAttendanceWrite_cons (e : Effect) (tr : List Effect) :
    hasAttendanceWrite (e :: tr) =
      ((match e with | .setAttendance _ _ _ => true | _ => false) ||
        hasAttendanceWrite tr) := by
  simp [hasAttendanceWrite]

theorem hasAttendanceWrite_append (a b : List Effect) :
    hasAttendanceWrite (a ++ b) = (hasAttendanceWrite a || hasAttendanceWrite b) := by
  simp [hasAttendanceWrite]

/-- The trace of `check_student_by_rfid` is exactly one identity lookup. -/
theorem check_student_by_rfid_trace (store : Store) (rfid : String) :
    (check_student_by_rfid store rfid).1 = [Effect.lookupStudents] := by
  unfold check_student_by_rfid
  dsimp only
  split
  · rfl
  · split <;> rfl

/-- The trace of `check_student_by_fingerprint` is exactly one identity
lookup. -/
theorem check_student_by_fingerprint_trace (store : Store) (fid : Json) :
    (check_student_by_fingerprint store fid).1 = [Effect.lookupStudents] := by
  unfold check_student_by_fingerprint
  split
  · rfl
  · split
    · rfl
    · split <;> try rfl
      split <;> rfl

/-- The trace of `save_attendance` is empty or a single attendance write at
`sessions/{key}/attendance/{rfid}`. -/
theorem save_attendance_trace_shape (parse : String → Option ℚ) (now : ℚ)
    (store : Store) (fkey : Json) (rfid : String) (sd : Json) (method : String) :
    (save_attendance parse now store fkey rfid sd method).1 = [] ∨
    ∃ e, (save_attendance parse now store fkey rfid sd method).1 =
      [Effect.setAttendance fkey.pyStr rfid e] := by
  unfold save_attendance
  dsimp only
  repeat' split
  all_goals first
    | exact Or.inl rfl
    | exact Or.inr ⟨_, rfl⟩

/-- `save_attendance` never publishes. -/
theorem save_attendance_publishCount (parse : String → Option ℚ) (now : ℚ)
    (store : Store) (fkey : Json) (rfid : String) (sd : Json) (method : String) :
    publishCount (save_attendance parse now store fkey rfid sd method).1 = 0 := by
  rcases save_attendance_trace_shape parse now store fkey rfid sd method with h | ⟨e, h⟩ <;>
    simp [h, publishCount, List.filter]

/-- With a failed publish (`rc ≠ 0`) the allow tail is just the attempted
publish. -/
theorem allowTail_publish_failed (t : Topics) (parse : String → Option ℚ)
    (now : ℚ) (store : Store) (rfid : String) (sd : Json) (method : String) :
    allowTail t false parse now store rfid sd method =
      [Effect.publish t.lock_open "OK"] := by
  simp [allowTail]

/-- With no active session the allow tail is just the publish, whatever the
publish outcome. -/
theorem allowTail_no_session (t : Topics) (pub : Bool)
    (parse : String → Option ℚ) (now : ℚ) (store : Store) (rfid : String)
    (sd : Json) (method : String)
    (h : get_active_session store = none) :
    allowTail t pub parse now store rfid sd method =
      [Effect.publish t.lock_open "OK"] := by
  cases pub <;> simp [allowTail, h]

/-- The allow tail contains exactly one publish. -/
theorem allowTail_publishCount (t : Topics) (pub : Bool)
    (parse : String → Option ℚ) (now : ℚ) (store : Store) (rfid : String)
    (sd : Json) (method : String) :
    publishCount (allowTail t pub parse now store rfid sd method) = 1 := by
  cases pub
  · simp [allowTail, publishCount, List.filter]
  · unfold allowTail
    rw [publishCount_cons_publish]
    cases hg : get_active_session store
    · simp [publishCount, List.filter]
    · rename_i k
      by_cases hk : k.pyTruthy
      · simp [hk, save_attendance_publishCount]
      · simp [hk, publishCount, List.filter]

theorem exceptBind_ok {α β ε : Type} (a : α) (f : α → Except ε β) :
    (Except.ok a >>= f) = f a := rfl

theorem exceptBind_error {α β ε : Type} (e : ε) (f : α → Except ε β) :
    ((Except.error e : Except ε α) >>= f) = Except.error e := rfl

theorem exceptPure {α ε : Type} (a : α) :
    (pure a : Except ε α) = Except.ok a := rfl

/-! ## C4 — card message validation -/

/-- C4 (counterexample): the claim says a boolean where an integer is
required is a validation failure, but `isinstance(True, int)` holds in
Python, so `validate_card_message` accepts a boolean `card_reader`; the
spec-side validator `specCardValid` rejects the same payload. -/
theorem C4_counterexample :
    validate_card_message (Json.obj
        [("card_reader", Json.bool true), ("card_id", Json.str "A1B2C3")]) =
      Except.ok (true, "Valid card message") ∧
    specCardValid (Json.obj
        [("card_reader", Json.bool true), ("card_id", Json.str "A1B2C3")]) = false :=
  ⟨rfl, rfl⟩

/-- C4 (amended): on a dict payload, validation succeeds exactly when
`card_reader` is present with a value passing Python's `isinstance(_, int)`
(so integers **and booleans**) and `card_id` is present with a string value;
each failure is reported with a message naming the offending field(s):
missing field(s) name both expected fields, a mistyped `card_reader` (an
integer encoded as a string included) names `card_reader`, and a mistyped
`card_id` names `card_id`. -/
theorem C4_card_validation (kvs : List (String × Json)) :
    (validate_card_message (.obj kvs) = .ok (true, "Valid card message") ↔
      (∃ r, Json.lookupKey kvs "card_reader" = some r ∧ r.pyIsInt = true) ∧
      (∃ c, Json.lookupKey kvs "card_id" = some c ∧ c.pyIsStr = true)) ∧
    (validate_card_message (.obj kvs) =
        .ok (false, "Missing required fields. Expected: [card_reader, card_id]") ↔
      (Json.lookupKey kvs "card_reader" = none ∨ Json.lookupKey kvs "card_id" = none)) ∧
    (validate_card_message (.obj kvs) = .ok (false, "card_reader must be an integer") ↔
      (∃ r, Json.lookupKey kvs "card_reader" = some r ∧ r.pyIsInt = false) ∧
      (∃ c, Json.lookupKey kvs "card_id" = some c)) ∧
    (validate_card_message (.obj kvs) = .ok (false, "card_id must be a string") ↔
      (∃ r, Json.lookupKey kvs "card_reader" = some r ∧ r.pyIsInt = true) ∧
      (∃ c, Json.lookupKey kvs "card_id" = some c ∧ c.pyIsStr = false)) := by
  cases hR : Json.lookupKey kvs "card_reader" <;> cases hC : Json.lookupKey kvs "card_id"
  case none.none =>
    simp [validate_card_message, Json.pyIn, Json.pyIndex, hR, hC,
      exceptBind_ok, exceptBind_error, exceptPure]
  case none.some c =>
    simp [validate_card_message, Json.pyIn, Json.pyIndex, hR, hC,
      exceptBind_ok, exceptBind_error, exceptPure]
  case some.none r =>
    simp [validate_card_message, Json.pyIn, Json.pyIndex, hR, hC,
      exceptBind_ok, exceptBind_error, exceptPure]
  case some.some r c =>
    cases hri : r.pyIsInt <;> cases hcs : c.pyIsStr <;>
      simp [validate_card_message, Json.pyIn, Json.pyIndex, hR, hC, hri, hcs,
        exceptBind_ok, exceptBind_error, exceptPure]

/-! ## C5 — subscriptions and topic dispatch -/

/-- C5 (counterexample): the claim says the router subscribes only to the
card-verify and fingerprint-verify topics and never to the unlock-command
topic, but `on_connect` subscribes to every entry of `MQTT_TOPICS` — the
lock-open topic (distinct from the other two in the default configuration)
included. -/
theorem C5_counterexample :
    defaultTopics.lock_open ∈ on_connect_subscribed defaultTopics ∧
    defaultTopics.lock_open ≠ defaultTopics.card ∧
    defaultTopics.lock_open ≠ defaultTopics.fingerprint := by
  refine ⟨?_, ?_, ?_⟩ <;> decide

/-- C5 (amended): the router subscribes to all three configured topics, the
unlock-command topic included; a message arriving on any topic other than
card-verify or fingerprint-verify (so in particular on the unlock-command
topic) is routed to the terminal unknown-topic branch and produces no
effects. -/
theorem C5_router_topics (t : Topics) (topic : String) :
    on_connect_subscribed t = [t.card, t.fingerprint, t.lock_open] ∧
    (routeOf t topic = .unknownTopic ↔ (topic ≠ t.card ∧ topic ≠ t.fingerprint)) ∧
    (∀ fc pub parse now store payload,
      routeOf t topic = .unknownTopic →
      on_message t fc pub parse now store topic payload = []) := by
  refine ⟨rfl, ?_, ?_⟩
  · unfold routeOf
    split_ifs with h1 h2
    · simp [h1]
    · simp [h1, h2]
    · simp [h1, h2]
  · intro fc pub parse now store payload hroute
    cases payload with
    | none => rfl
    | some data => simp [on_message, hroute]

/-- C5 witness: a concrete delivery on the lock-open topic yields no
effects. -/
theorem C5_router_topics_witness :
    on_message defaultTopics true true (fun _ => none) 0
      ⟨Json.null, Json.null, false, false, false, false⟩
      "smartguard/lock/open" (some (Json.obj [])) = [] :=
  (C5_router_topics defaultTopics "smartguard/lock/open").2.2 true true
    (fun _ => none) 0 ⟨Json.null, Json.null, false, false, false, false⟩
    (some (Json.obj [])) rfl

/-! ## C10 — active-session pointer resolution -/

/-- C10: `get_active_session` reports no active session (`None`) — never
raising — when the read errors, when the pointer record is absent, and
equally when the pointer record is present but lacks the `firebaseKey`
field. -/
theorem C10_get_active_session (store : Store) :
    (store.activeReadErr = true → get_active_session store = none) ∧
    (Store.child store.sessions "active" = Json.null →
      get_active_session store = none) ∧
    (∀ kvs, Store.child store.sessions "active" = Json.obj kvs →
      Json.lookupKey kvs "firebaseKey" = none →
      get_active_session store = none) := by
  refine ⟨?_, ?_, ?_⟩
  · intro h
    simp [get_active_session, h]
  · intro h
    unfold get_active_session
    split
    · rfl
    · dsimp only
      rw [h]
      rfl
  · intro kvs h hk
    unfold get_active_session
    split
    · rfl
    · dsimp only
      rw [h]
      by_cases ht : (Json.obj kvs).pyTruthy
      · simp [ht, Json.pyIn, hk]
      · simp [ht]

/-- C10 witness: a present pointer record without `firebaseKey` yields
`none`. -/
theorem C10_get_active_session_witness :
    get_active_session
      ⟨Json.null, Json.obj [("active", Json.obj [("x", Json.null)])],
        false, false, false, false⟩ = none :=
  (C10_get_active_session _).2.2 [("x", Json.null)] rfl rfl

/-! ## C6 — attendance-recorder failure guards -/

/-- C6: `save_attendance` reports failure and writes nothing when the named
session is absent, when the session lacks a `started` timestamp, and when
the `started` timestamp does not parse (after the Zulu-suffix rewrite); each
case returns `([], false)` — no effect, non-fatal. -/
theorem C6_save_attendance_guards (parse : String → Option ℚ) (now : ℚ)
    (store : Store) (fkey : Json) (rfid : String) (sd : Json) (method : String) :
    (Store.child store.sessions fkey.pyStr = Json.null →
      save_attendance parse now store fkey rfid sd method = ([], false)) ∧
    (∀ kvs, Store.child store.sessions fkey.pyStr = Json.obj kvs →
      Json.lookupKey kvs "started" = none →
      save_attendance parse now store fkey rfid sd method = ([], false)) ∧
    (∀ kvs s, Store.child store.sessions fkey.pyStr = Json.obj kvs →
      Json.lookupKey kvs "started" = some (Json.str s) →
      parse (zuluToOffset s) = none →
      save_attendance parse now store fkey rfid sd method = ([], false)) := by
  refine ⟨?_, ?_, ?_⟩
  · intro h
    unfold save_attendance
    split
    · rfl
    · dsimp only
      rw [h]
      rfl
  · intro kvs h hk
    unfold save_attendance
    split
    · rfl
    · dsimp only
      rw [h]
      by_cases ht : (Json.obj kvs).pyTruthy
      · simp [ht, Json.pyIn, hk]
      · simp [ht]
  · intro kvs s h hk hp
    unfold save_attendance
    split
    · rfl
    · dsimp only
      rw [h]
      have hne : kvs ≠ [] := by
        intro he
        rw [he] at hk
        simp [Json.lookupKey] at hk
      have ht : (Json.obj kvs).pyTruthy = true := by
        simp [Json.pyTruthy, hne]
      simp [ht, Json.pyIn, Json.pyIndex, hk, hp]

/-- C6 witness: a session whose `started` timestamp fails to parse yields
`([], false)`. -/
theorem C6_save_attendance_guards_witness :
    save_attendance (fun _ => none) 0
      ⟨Json.null, Json.obj [("K", Json.obj [("started", Json.str "oops")])],
        false, false, false, false⟩
      (Json.str "K") "R" (Json.obj []) "RFID" = ([], false) :=
  (C6_save_attendance_guards (fun _ => none) 0 _ (Json.str "K") "R"
    (Json.obj []) "RFID").2.2 [("started", Json.str "oops")] "oops" rfl rfl rfl

/-! ## C9 — missing identity attributes default to "Unknown" -/

/-- C9: when the session is well-formed and the store healthy, **every**
resolved dict record — whatever identity attributes it carries or lacks —
gets its attendance entry written and recording succeeds; each of the two
attributes independently defaults to the literal string `"Unknown"` when its
field is absent, and is written as stored when present.  In particular a
record missing only `name`, only `student_id`, or both is recorded, never
skipped or failed. -/
theorem C9_unknown_defaults (parse : String → Option ℚ) (now : ℚ)
    (store : Store) (fkey : Json) (rfid : String)
    (skvs dkvs : List (String × Json)) (s : String) (q : ℚ) (method : String)
    (hre : store.sessionReadErr = false)
    (hwe : store.attendanceWriteErr = false)
    (hsession : Store.child store.sessions fkey.pyStr = Json.obj skvs)
    (hstarted : Json.lookupKey skvs "started" = some (Json.str s))
    (hparse : parse (zuluToOffset s) = some q) :
    ∃ e : AttendanceEntry,
      save_attendance parse now store fkey rfid (Json.obj dkvs) method =
        ([Effect.setAttendance fkey.pyStr rfid e], true) ∧
      e.method = method ∧
      (Json.lookupKey dkvs "name" = none → e.name = Json.str "Unknown") ∧
      (Json.lookupKey dkvs "student_id" = none →
        e.studentId = Json.str "Unknown") ∧
      (∀ v, Json.lookupKey dkvs "name" = some v → e.name = v) ∧
      (∀ v, Json.lookupKey dkvs "student_id" = some v → e.studentId = v) := by
  have hne : skvs ≠ [] := by
    intro he
    rw [he] at hstarted
    simp [Json.lookupKey] at hstarted
  have ht : (Json.obj skvs).pyTruthy = true := by
    simp [Json.pyTruthy, hne]
  have hmain : save_attendance parse now store fkey rfid (Json.obj dkvs) method =
      ([Effect.setAttendance fkey.pyStr rfid
          ⟨method, (Json.lookupKey dkvs "name").getD (Json.str "Unknown"),
            (Json.lookupKey dkvs "student_id").getD (Json.str "Unknown"),
            toString (pyInt (now * 1000) - pyInt (q * 1000))⟩], true) := by
    unfold save_attendance
    rw [hre]
    dsimp only
    rw [hsession]
    simp [ht, Json.pyIn, Json.pyIndex, Json.pyDictGet, hstarted, hparse, hwe]
  refine ⟨_, hmain, rfl, ?_, ?_, ?_, ?_⟩
  · intro h
    simp [h]
  · intro h
    simp [h]
  · intro v h
    simp [h]
  · intro v h
    simp [h]

/-- C9 witness: a concrete record with `name` present but `student_id`
absent is still recorded; the present attribute is kept and the missing one
is written as `"Unknown"`. -/
theorem C9_unknown_defaults_witness :
    ∃ e : AttendanceEntry,
      save_attendance (fun _ => some 2) 5
        ⟨Json.null, Json.obj [("K", Json.obj [("started", Json.str "T")])],
          false, false, false, false⟩
        (Json.str "K") "R" (Json.obj [("name", Json.str "Jane")]) "RFID" =
        ([Effect.setAttendance "K" "R" e], true) ∧
      e.method = "RFID" ∧
      (Json.lookupKey [("name", Json.str "Jane")] "name" = none →
        e.name = Json.str "Unknown") ∧
      (Json.lookupKey [("name", Json.str "Jane")] "student_id" = none →
        e.studentId = Json.str "Unknown") ∧
      (∀ v, Json.lookupKey [("name", Json.str "Jane")] "name" = some v →
        e.name = v) ∧
      (∀ v, Json.lookupKey [("name", Json.str "Jane")] "student_id" = some v →
        e.studentId = v) :=
  C9_unknown_defaults (fun _ => some 2) 5
    ⟨Json.null, Json.obj [("K", Json.obj [("started", Json.str "T")])],
      false, false, false, false⟩
    (Json.str "K") "R" [("started", Json.str "T")]
    [("name", Json.str "Jane")] "T" 2 "RFID" rfl rfl rfl rfl rfl

/-! ## C8 — failed validation short-circuits before any lookup -/

/-- C8: a delivery whose payload fails validation — a missing required field
or a wrong field type (`.ok (false, msg)`), or a validator exception
(`.error`) — produces an empty effect trace: in particular no identity-store
lookup is performed.  Validation itself is a pure function of the payload
and consults no store. -/
theorem C8_invalid_no_lookup (t : Topics) (fc pub : Bool)
    (parse : String → Option ℚ) (now : ℚ) (store : Store) (topic : String)
    (data : Json) :
    (routeOf t topic = .card →
      (∀ msg, validate_card_message data = .ok (false, msg) →
        on_message t fc pub parse now store topic (some data) = []) ∧
      (validate_card_message data = .error () →
        on_message t fc pub parse now store topic (some data) = [])) ∧
    (routeOf t topic = .fingerprint →
      (∀ msg, validate_fingerprint_message data = .ok (false, msg) →
        on_message t fc pub parse now store topic (some data) = []) ∧
      (validate_fingerprint_message data = .error () →
        on_message t fc pub parse now store topic (some data) = [])) := by
  constructor
  · intro hroute
    constructor
    · intro msg hv
      simp [on_message, hroute, hv]
    · intro hv
      simp [on_message, hroute, hv]
  · intro hroute
    constructor
    · intro msg hv
      simp [on_message, hroute, hv]
    · intro hv
      simp [on_message, hroute, hv]

/-- C8 witness: the spec's malformed scenario — a card payload whose
`card_reader` is the string `"1"` — produces no effects at all. -/
theorem C8_invalid_no_lookup_witness :
    on_message defaultTopics true true (fun _ => none) 0
      ⟨Json.obj [("A1B2C3", Json.obj [("registered", Json.bool true)])],
        Json.null, false, false, false, false⟩
      "smartguard/verify/card"
      (some (Json.obj [("card_reader", Json.str "1"),
                       ("card_id", Json.str "A1B2C3")])) = [] :=
  ((C8_invalid_no_lookup defaultTopics true true (fun _ => none) 0
      ⟨Json.obj [("A1B2C3", Json.obj [("registered", Json.bool true)])],
        Json.null, false, false, false, false⟩
      "smartguard/verify/card"
      (Json.obj [("card_reader", Json.str "1"),
                 ("card_id", Json.str "A1B2C3")])).1 rfl).1
    "card_reader must be an integer" rfl

/-! ## C7 — fingerprint resolution -/

/-- When no record raises while being scanned, the scan loop returns the
first record satisfying the match condition `fpMatch` (paired as
`(student_data, rfid)`), or nothing. -/
theorem fingerprintScan_ok (key : String) (kvs : List (String × Json))
    (hsafe : ∀ p ∈ kvs, fpScanSafe key p.2 = true) :
    fingerprintScan key kvs =
      .ok ((kvs.find? fun p => fpMatch key p.2).map fun p => (p.2, p.1)) := by
  induction kvs with
  | nil => rfl
  | cons p rest ih =>
      obtain ⟨rfid, sd⟩ := p
      have hs : fpScanSafe key sd = true := hsafe (rfid, sd) (List.mem_cons_self _ _)
      have ihr := ih fun q hq => hsafe q (List.mem_cons_of_mem _ hq)
      cases sd with
      | null => simp [fpScanSafe] at hs
      | bool b => simp [fpScanSafe] at hs
      | int n => simp [fpScanSafe] at hs
      | str s =>
          have hns : Json.strContains s "fprints" = false := by
            simpa [fpScanSafe] using hs
          simp [fingerprintScan, Json.pyIn, hns, exceptBind_ok, fpMatch, ihr]
      | arr xs =>
          have hns : Json.arrContainsStr xs "fprints" = false := by
            simpa [fpScanSafe] using hs
          simp [fingerprintScan, Json.pyIn, hns, exceptBind_ok, fpMatch, ihr]
      | obj skvs =>
          cases hfp : Json.lookupKey skvs "fprints" with
          | none =>
              simp [fingerprintScan, Json.pyIn, hfp, exceptBind_ok, fpMatch, ihr]
          | some fp =>
              cases fp with
              | null => simp [fpScanSafe, hfp] at hs
              | bool b => simp [fpScanSafe, hfp] at hs
              | int n => simp [fpScanSafe, hfp] at hs
              | str s =>
                  have hns : Json.strContains s key = false := by
                    simpa [fpScanSafe, hfp] using hs
                  simp [fingerprintScan, Json.pyIn, Json.pyIndex, hfp, hns,
                    exceptBind_ok, fpMatch, ihr]
              | arr xs =>
                  have hns : Json.arrContainsStr xs key = false := by
                    simpa [fpScanSafe, hfp] using hs
                  simp [fingerprintScan, Json.pyIn, Json.pyIndex, hfp, hns,
                    exceptBind_ok, fpMatch, ihr]
              | obj fpkvs =>
                  cases hk : Json.lookupKey fpkvs key with
                  | none =>
                      simp [fingerprintScan, Json.pyIn, Json.pyIndex, hfp, hk,
                        exceptBind_ok, fpMatch, ihr]
                  | some v =>
                      cases hv : v.pyEqTrue <;>
                        simp [fingerprintScan, Json.pyIn, Json.pyIndex, hfp, hk,
                          hv, exceptBind_ok, exceptPure, fpMatch, ihr]

/-- C7 (counterexample): a record whose fingerprint mapping holds the
template id with the **integer** value `1` is returned as a match — in
Python `1 == True` — although the claim requires the value `true`, under
which this record matches nothing and NotFound would be returned. -/
theorem C7_counterexample :
    check_student_by_fingerprint
      ⟨Json.obj [("R1", Json.obj [("fprints", Json.obj [("7", Json.int 1)])])],
        Json.null, false, false, false, false⟩ (Json.int 7) =
      ([Effect.lookupStudents],
        (true, Json.obj [("fprints", Json.obj [("7", Json.int 1)])], some "R1")) ∧
    Json.int 1 ≠ Json.bool true :=
  ⟨rfl, fun h => Json.noConfusion h⟩

/-- C7 (amended): fingerprint resolution reads the entire identity
collection and returns the first record (with its credential key) whose
`fprints` mapping contains the string form of the template id with a value
that is `== True` in Python's sense — the boolean `true` **or the number
`1`** — or NotFound when no record matches; provided no record raises while
being scanned.  Resolution is a pure function of the store and template id,
so resolving twice against an unchanged collection yields the same result
both times. -/
theorem C7_fingerprint_resolution (store : Store) (fid : Json)
    (kvs : List (String × Json))
    (hok : store.studentsReadErr = false)
    (hst : store.students = Json.obj kvs)
    (hsafe : ∀ p ∈ kvs, fpScanSafe fid.pyStr p.2 = true) :
    check_student_by_fingerprint store fid =
      ([Effect.lookupStudents],
        match kvs.find? fun p => fpMatch fid.pyStr p.2 with
        | some p => (true, p.2, some p.1)
        | none => (false, Json.null, none)) := by
  unfold check_student_by_fingerprint
  rw [hok, hst]
  cases kvs with
  | nil => simp [Json.pyTruthy]
  | cons p rest =>
      have ht : (Json.obj (p :: rest)).pyTruthy = true := by
        simp [Json.pyTruthy]
      cases hf : (p :: rest).find? fun q => fpMatch fid.pyStr q.2 with
      | none => simp [ht, fingerprintScan_ok _ _ hsafe, hf]
      | some q => simp [ht, fingerprintScan_ok _ _ hsafe, hf]

/-- C7 witness: a two-record collection where only the second record's
mapping holds template id `5` with value `true`; resolution returns that
record and its key. -/
theorem C7_fingerprint_resolution_witness :
    check_student_by_fingerprint
      ⟨Json.obj
          [("R1", Json.obj [("fprints", Json.obj [("4", Json.bool true)])]),
           ("R2", Json.obj [("fprints", Json.obj [("5", Json.bool true)])])],
        Json.null, false, false, false, false⟩ (Json.int 5) =
      ([Effect.lookupStudents],
        (true, Json.obj [("fprints", Json.obj [("5", Json.bool true)])],
          some "R2")) := by
  have h := C7_fingerprint_resolution
    ⟨Json.obj
        [("R1", Json.obj [("fprints", Json.obj [("4", Json.bool true)])]),
         ("R2", Json.obj [("fprints", Json.obj [("5", Json.bool true)])])],
      Json.null, false, false, false, false⟩ (Json.int 5)
    [("R1", Json.obj [("fprints", Json.obj [("4", Json.bool true)])]),
     ("R2", Json.obj [("fprints", Json.obj [("5", Json.bool true)])])]
    rfl rfl (by decide)
  rw [h]
  rfl

/-! ## Shape lemmas for the two `on_message` branches -/

/-- Every card-branch trace is empty, a bare lookup, or a lookup followed by
the allow tail. -/
theorem cardBranch_cases (t : Topics) (fc pub : Bool)
    (parse : String → Option ℚ) (now : ℚ) (store : Store) (data : Json) :
    cardBranch t fc pub parse now store data = [] ∨
    cardBranch t fc pub parse now store data = [Effect.lookupStudents] ∨
    ∃ rfid sd, cardBranch t fc pub parse now store data =
      Effect.lookupStudents :: allowTail t pub parse now store rfid sd "RFID" := by
  unfold cardBranch
  by_cases hfc : fc = true
  · rw [if_pos hfc]
    cases hidx : Json.pyIndex data "card_id" with
    | error e => simp
    | ok v =>
        cases v with
        | str c =>
            rcases hch : check_student_by_rfid store c with ⟨effs, found, sd⟩
            have he : effs = [Effect.lookupStudents] := by
              have h := check_student_by_rfid_trace store c
              rw [hch] at h
              exact h
            subst he
            cases found with
            | false => simp [hch]
            | true =>
                cases hg : Json.pyDictGet sd "name" (.str "N/A") with
                | error e => simp [hch, hg]
                | ok nm =>
                    cases hg2 : Json.pyDictGet sd "registered" (.bool false) with
                    | error e => simp [hch, hg, hg2]
                    | ok reg =>
                        by_cases hr : reg.pyTruthy = true
                        · refine Or.inr (Or.inr ⟨c, sd, ?_⟩)
                          simp [hch, hg, hg2, hr]
                        · simp [hch, hg, hg2, hr]
        | null => simp
        | bool b => simp
        | int n => simp
        | arr xs => simp
        | obj kvs => simp
  · rw [if_neg hfc]
    simp

/-- Every fingerprint-branch trace is empty, a bare lookup, or a lookup
followed by the allow tail. -/
theorem fingerprintBranch_cases (t : Topics) (fc pub : Bool)
    (parse : String → Option ℚ) (now : ℚ) (store : Store) (data : Json) :
    fingerprintBranch t fc pub parse now store data = [] ∨
    fingerprintBranch t fc pub parse now store data = [Effect.lookupStudents] ∨
    ∃ rfid sd, fingerprintBranch t fc pub parse now store data =
      Effect.lookupStudents :: allowTail t pub parse now store rfid sd "Fingerprint" := by
  unfold fingerprintBranch
  by_cases hfc : fc = true
  · rw [if_pos hfc]
    cases hidx : Json.pyIndex data "fingerprint_id" with
    | error e => simp
    | ok fid =>
        rcases hch : check_student_by_fingerprint store fid with ⟨effs, found, sd, orf⟩
        have he : effs = [Effect.lookupStudents] := by
          have h := check_student_by_fingerprint_trace store fid
          rw [hch] at h
          exact h
        subst he
        cases found with
        | false => cases orf <;> simp [hch]
        | true =>
            cases orf with
            | none => simp [hch]
            | some rfid =>
                cases hg : Json.pyDictGet sd "name" (.str "N/A") with
                | error e => simp [hch, hg]
                | ok nm =>
                    cases hg2 : Json.pyDictGet sd "registered" (.bool false) with
                    | error e => simp [hch, hg, hg2]
                    | ok reg =>
                        by_cases hr : reg.pyTruthy = true
                        · refine Or.inr (Or.inr ⟨rfid, sd, ?_⟩)
                          simp [hch, hg, hg2, hr]
                        · simp [hch, hg, hg2, hr]
  · rw [if_neg hfc]
    simp

/-! ## C1 — registration policy -/

/-- C1 (counterexample): the claim says Allow holds iff `registered` equals
`true`, yet a record whose `registered` field holds the **integer `1`** (not
the boolean `true`) is allowed: the full pipeline publishes the unlock
directive for it, because the code tests Python truthiness of
`student_data.get('registered', False)`. -/
theorem C1_counterexample :
    on_message defaultTopics true true (fun _ => none) 0
      ⟨Json.obj [("A1", Json.obj [("registered", Json.int 1)])], Json.null,
        false, false, false, false⟩
      "smartguard/verify/card"
      (some (Json.obj [("card_reader", Json.int 1), ("card_id", Json.str "A1")])) =
      [Effect.lookupStudents, Effect.publish "smartguard/lock/open" "OK"] ∧
    Json.lookupKey [("registered", Json.int 1)] "registered" ≠
      some (Json.bool true) := by
  constructor
  · rfl
  · intro h
    simp [Json.lookupKey] at h

/-- C1 (amended): for a resolved identity record the decision is Allow iff
`student_data.get('registered', False)` is **truthy** in Python's sense (so
any non-empty/non-zero value allows, and absence or a falsy value denies —
not only the boolean `true`); on Allow the branch trace is the lookup
followed by the allow tail and contains exactly one unlock publish; on Deny
the branch trace is the bare lookup — zero publishes and zero attendance
writes.  Both the card and the fingerprint branch obey this. -/
theorem C1_registration_policy (t : Topics) (pub : Bool)
    (parse : String → Option ℚ) (now : ℚ) (store : Store) :
    (∀ data card_id sd,
      Json.pyIndex data "card_id" = .ok (Json.str card_id) →
      check_student_by_rfid store card_id =
        ([Effect.lookupStudents], (true, sd)) →
      (access_allowed sd = true →
        cardBranch t true pub parse now store data =
          Effect.lookupStudents ::
            allowTail t pub parse now store card_id sd "RFID" ∧
        publishCount (cardBranch t true pub parse now store data) = 1) ∧
      (access_allowed sd = false →
        cardBranch t true pub parse now store data = [Effect.lookupStudents])) ∧
    (∀ data fid sd rfid,
      Json.pyIndex data "fingerprint_id" = .ok fid →
      check_student_by_fingerprint store fid =
        ([Effect.lookupStudents], (true, sd, some rfid)) →
      (access_allowed sd = true →
        fingerprintBranch t true pub parse now store data =
          Effect.lookupStudents ::
            allowTail t pub parse now store rfid sd "Fingerprint" ∧
        publishCount (fingerprintBranch t true pub parse now store data) = 1) ∧
      (access_allowed sd = false →
        fingerprintBranch t true pub parse now store data = [Effect.lookupStudents])) := by
  constructor
  · intro data card_id sd hidx hch
    cases sd with
    | obj kvs =>
        constructor
        · intro hallow
          have hr : ((Json.lookupKey kvs "registered").getD (Json.bool false)).pyTruthy = true := by
            simpa [access_allowed, Json.pyDictGet] using hallow
          have heq : cardBranch t true pub parse now store data =
              Effect.lookupStudents ::
                allowTail t pub parse now store card_id (Json.obj kvs) "RFID" := by
            simp [cardBranch, hidx, hch, Json.pyDictGet, hr]
          refine ⟨heq, ?_⟩
          rw [heq, publishCount_cons_lookup, allowTail_publishCount]
        · intro hdeny
          have hr : ((Json.lookupKey kvs "registered").getD (Json.bool false)).pyTruthy = false := by
            simpa [access_allowed, Json.pyDictGet] using hdeny
          simp [cardBranch, hidx, hch, Json.pyDictGet, hr]
    | null =>
        refine ⟨fun hallow => absurd hallow ?_, fun _ => ?_⟩
        · simp [access_allowed, Json.pyDictGet]
        · simp [cardBranch, hidx, hch, Json.pyDictGet]
    | bool b =>
        refine ⟨fun hallow => absurd hallow ?_, fun _ => ?_⟩
        · simp [access_allowed, Json.pyDictGet]
        · simp [cardBranch, hidx, hch, Json.pyDictGet]
    | int n =>
        refine ⟨fun hallow => absurd hallow ?_, fun _ => ?_⟩
        · simp [access_allowed, Json.pyDictGet]
        · simp [cardBranch, hidx, hch, Json.pyDictGet]
    | str s =>
        refine ⟨fun hallow => absurd hallow ?_, fun _ => ?_⟩
        · simp [access_allowed, Json.pyDictGet]
        · simp [cardBranch, hidx, hch, Json.pyDictGet]
    | arr xs =>
        refine ⟨fun hallow => absurd hallow ?_, fun _ => ?_⟩
        · simp [access_allowed, Json.pyDictGet]
        · simp [cardBranch, hidx, hch, Json.pyDictGet]
  · intro data fid sd rfid hidx hch
    cases sd with
    | obj kvs =>
        constructor
        · intro hallow
          have hr : ((Json.lookupKey kvs "registered").getD (Json.bool false)).pyTruthy = true := by
            simpa [access_allowed, Json.pyDictGet] using hallow
          have heq : fingerprintBranch t true pub parse now store data =
              Effect.lookupStudents ::
                allowTail t pub parse now store rfid (Json.obj kvs) "Fingerprint" := by
            simp [fingerprintBranch, hidx, hch, Json.pyDictGet, hr]
          refine ⟨heq, ?_⟩
          rw [heq, publishCount_cons_lookup, allowTail_publishCount]
        · intro hdeny
          have hr : ((Json.lookupKey kvs "registered").getD (Json.bool false)).pyTruthy = false := by
            simpa [access_allowed, Json.pyDictGet] using hdeny
          simp [fingerprintBranch, hidx, hch, Json.pyDictGet, hr]
    | null =>
        refine ⟨fun hallow => absurd hallow ?_, fun _ => ?_⟩
        · simp [access_allowed, Json.pyDictGet]
        · simp [fingerprintBranch, hidx, hch, Json.pyDictGet]
    | bool b =>
        refine ⟨fun hallow => absurd hallow ?_, fun _ => ?_⟩
        · simp [access_allowed, Json.pyDictGet]
        · simp [fingerprintBranch, hidx, hch, Json.pyDictGet]
    | int n =>
        refine ⟨fun hallow => absurd hallow ?_, fun _ => ?_⟩
        · simp [access_allowed, Json.pyDictGet]
        · simp [fingerprintBranch, hidx, hch, Json.pyDictGet]
    | str s =>
        refine ⟨fun hallow => absurd hallow ?_, fun _ => ?_⟩
        · simp [access_allowed, Json.pyDictGet]
        · simp [fingerprintBranch, hidx, hch, Json.pyDictGet]
    | arr xs =>
        refine ⟨fun hallow => absurd hallow ?_, fun _ => ?_⟩
        · simp [access_allowed, Json.pyDictGet]
        · simp [fingerprintBranch, hidx, hch, Json.pyDictGet]

/-- C1 witness: a concretely registered record produces exactly one unlock
publish in the card branch. -/
theorem C1_registration_policy_witness :
    publishCount (cardBranch defaultTopics true true (fun _ => none) 0
      ⟨Json.obj [("A1", Json.obj [("registered", Json.bool true)])], Json.null,
        false, false, false, false⟩
      (Json.obj [("card_reader", Json.int 1), ("card_id", Json.str "A1")])) = 1 :=
  (((C1_registration_policy defaultTopics true (fun _ => none) 0
      ⟨Json.obj [("A1", Json.obj [("registered", Json.bool true)])], Json.null,
        false, false, false, false⟩).1
    (Json.obj [("card_reader", Json.int 1), ("card_id", Json.str "A1")])
    "A1" (Json.obj [("registered", Json.bool true)]) rfl rfl).1 rfl).2

/-! ## C3 — unlock publish precedes attendance recording -/

/-- C3: in every pipeline trace no attendance write occurs before a publish;
when the unlock publish fails (`rc ≠ 0`, modelled `pub = false`) no
attendance write occurs at all; when no active session exists the allow tail
is exactly the already-issued publish — attendance is skipped and the
publish is not revoked; and the allow tail always retains its publish,
whatever `save_attendance` later does. -/
theorem C3_unlock_ordering (t : Topics) (fc pub : Bool)
    (parse : String → Option ℚ) (now : ℚ) (store : Store) (topic : String)
    (payload : Option Json) (rfid : String) (sd : Json) (method : String) :
    noWriteBeforePublish (on_message t fc pub parse now store topic payload) = true ∧
    hasAttendanceWrite (on_message t fc false parse now store topic payload) = false ∧
    (get_active_session store = none →
      allowTail t pub parse now store rfid sd method =
        [Effect.publish t.lock_open "OK"]) ∧
    hasPublish (allowTail t pub parse now store rfid sd method) = true := by
  refine ⟨?_, ?_, allowTail_no_session t pub parse now store rfid sd method, ?_⟩
  · cases payload with
    | none => rfl
    | some data =>
        unfold on_message
        cases hroute : routeOf t topic with
        | card =>
            cases hv : validate_card_message data with
            | error e => simp [hv, noWriteBeforePublish]
            | ok r =>
                obtain ⟨b, msg⟩ := r
                cases b
                · simp [hv, noWriteBeforePublish]
                · rcases cardBranch_cases t fc pub parse now store data with
                    h | h | ⟨r2, s2, h⟩ <;>
                      simp [hv, h, noWriteBeforePublish, allowTail]
        | fingerprint =>
            cases hv : validate_fingerprint_message data with
            | error e => simp [hv, noWriteBeforePublish]
            | ok r =>
                obtain ⟨b, msg⟩ := r
                cases b
                · simp [hv, noWriteBeforePublish]
                · rcases fingerprintBranch_cases t fc pub parse now store data with
                    h | h | ⟨r2, s2, h⟩ <;>
                      simp [hv, h, noWriteBeforePublish, allowTail]
        | unknownTopic => simp [noWriteBeforePublish]
  · cases payload with
    | none => rfl
    | some data =>
        unfold on_message
        cases hroute : routeOf t topic with
        | card =>
            cases hv : validate_card_message data with
            | error e => simp [hv, hasAttendanceWrite]
            | ok r =>
                obtain ⟨b, msg⟩ := r
                cases b
                · simp [hv, hasAttendanceWrite]
                · rcases cardBranch_cases t fc false parse now store data with
                    h | h | ⟨r2, s2, h⟩ <;>
                      simp [hv, h, hasAttendanceWrite, allowTail_publish_failed]
        | fingerprint =>
            cases hv : validate_fingerprint_message data with
            | error e => simp [hv, hasAttendanceWrite]
            | ok r =>
                obtain ⟨b, msg⟩ := r
                cases b
                · simp [hv, hasAttendanceWrite]
                · rcases fingerprintBranch_cases t fc false parse now store data with
                    h | h | ⟨r2, s2, h⟩ <;>
                      simp [hv, h, hasAttendanceWrite, allowTail_publish_failed]
        | unknownTopic => simp [hasAttendanceWrite]
  · cases pub <;> simp [allowTail, hasPublish]

/-- C3 witness: with a healthy store but no active session, the concrete
pipeline publishes and writes nothing. -/
theorem C3_unlock_ordering_witness :
    noWriteBeforePublish (on_message defaultTopics true true (fun _ => none) 0
      ⟨Json.obj [("A1", Json.obj [("registered", Json.bool true)])], Json.null,
        false, false, false, false⟩
      "smartguard/verify/card"
      (some (Json.obj [("card_reader", Json.int 1),
                       ("card_id", Json.str "A1")]))) = true ∧
    (get_active_session
        ⟨Json.obj [("A1", Json.obj [("registered", Json.bool true)])], Json.null,
          false, false, false, false⟩ = none →
      allowTail defaultTopics true (fun _ => none) 0
        ⟨Json.obj [("A1", Json.obj [("registered", Json.bool true)])], Json.null,
          false, false, false, false⟩ "A1"
        (Json.obj [("registered", Json.bool true)]) "RFID" =
        [Effect.publish "smartguard/lock/open" "OK"]) :=
  ⟨(C3_unlock_ordering defaultTopics true true (fun _ => none) 0
      ⟨Json.obj [("A1", Json.obj [("registered", Json.bool true)])], Json.null,
        false, false, false, false⟩
      "smartguard/verify/card"
      (some (Json.obj [("card_reader", Json.int 1), ("card_id", Json.str "A1")]))
      "A1" (Json.obj [("registered", Json.bool true)]) "RFID").1,
   (C3_unlock_ordering defaultTopics true true (fun _ => none) 0
      ⟨Json.obj [("A1", Json.obj [("registered", Json.bool true)])], Json.null,
        false, false, false, false⟩
      "smartguard/verify/card"
      (some (Json.obj [("card_reader", Json.int 1), ("card_id", Json.str "A1")]))
      "A1" (Json.obj [("registered", Json.bool true)]) "RFID").2.2.1⟩

/-! ## C2 — timeIn arithmetic -/

/-- C2 (counterexample): the claim says `timeIn` equals the wall-clock
difference floored to whole milliseconds, but the code truncates **each**
timestamp to milliseconds before subtracting.  With a session started at
epoch second `2499/2500` (= 999.6 ms) and current time `2501/2500`
(= 1000.4 ms) the true difference is 0.8 ms, whose floor is 0 ms, yet the
code writes `"1"`. -/
theorem C2_counterexample :
    firstWrittenEntry (save_attendance (fun _ => some (2499/2500 : ℚ)) (2501/2500)
        ⟨Json.null, Json.obj [("K", Json.obj [("started", Json.str "S")])],
          false, false, false, false⟩
        (Json.str "K") "R" (Json.obj []) "RFID").1 =
      some ⟨"RFID", Json.str "Unknown", Json.str "Unknown", "1"⟩ ∧
    specElapsedMs (2501/2500) (2499/2500) = 0 ∧
    ("1" : String) ≠ "0" := by
  have h1 : pyInt ((5002/5 : ℚ)) = 1000 := by norm_num [pyInt]
  have h2 : pyInt ((4998/5 : ℚ)) = 999 := by norm_num [pyInt]
  refine ⟨?_, ?_, by decide⟩
  · have hsave : save_attendance (fun _ => some (2499/2500 : ℚ)) (2501/2500)
        ⟨Json.null, Json.obj [("K", Json.obj [("started", Json.str "S")])],
          false, false, false, false⟩
        (Json.str "K") "R" (Json.obj []) "RFID" =
        ([Effect.setAttendance "K" "R"
            ⟨"RFID", Json.str "Unknown", Json.str "Unknown", "1"⟩], true) := by
      unfold save_attendance
      norm_num [Store.child, Json.lookupKey, Json.pyStr, Json.pyTruthy,
        Json.pyIn, Json.pyIndex, Json.pyDictGet, zuluToOffset, List.find?]
      rw [h1, h2]
      rfl
    rw [hsave]
    rfl
  · norm_num [specElapsedMs]

/-- C2 (amended): for every successfully recorded attendance entry, `timeIn`
is the string form of (current wall-clock time truncated to whole
milliseconds) minus (parsed session start truncated to whole milliseconds)
— each timestamp is truncated separately before subtracting, which can
exceed the floor of the true difference by one millisecond; a negative
value is written verbatim.  Under nonnegative epoch times the written value
equals the spec's floored difference or that difference plus one. -/
theorem C2_timeIn (parse : String → Option ℚ) (now : ℚ) (store : Store)
    (fkey : Json) (rfid : String) (dkvs skvs : List (String × Json))
    (s : String) (q : ℚ) (method : String)
    (hre : store.sessionReadErr = false)
    (hwe : store.attendanceWriteErr = false)
    (hsession : Store.child store.sessions fkey.pyStr = Json.obj skvs)
    (hstarted : Json.lookupKey skvs "started" = some (Json.str s))
    (hparse : parse (zuluToOffset s) = some q) :
    save_attendance parse now store fkey rfid (Json.obj dkvs) method =
      ([Effect.setAttendance fkey.pyStr rfid
          ⟨method, (Json.lookupKey dkvs "name").getD (Json.str "Unknown"),
            (Json.lookupKey dkvs "student_id").getD (Json.str "Unknown"),
            toString (pyInt (now * 1000) - pyInt (q * 1000))⟩], true) ∧
    (0 ≤ q → 0 ≤ now →
      pyInt (now * 1000) - pyInt (q * 1000) = specElapsedMs now q ∨
      pyInt (now * 1000) - pyInt (q * 1000) = specElapsedMs now q + 1) := by
  constructor
  · have hne : skvs ≠ [] := by
      intro he
      rw [he] at hstarted
      simp [Json.lookupKey] at hstarted
    have ht : (Json.obj skvs).pyTruthy = true := by
      simp [Json.pyTruthy, hne]
    unfold save_attendance
    rw [hre]
    dsimp only
    rw [hsession]
    simp [ht, Json.pyIn, Json.pyIndex, Json.pyDictGet, hstarted, hparse, hwe]
  · intro hq hnow
    have ha : (0 : ℚ) ≤ now * 1000 := by positivity
    have hb : (0 : ℚ) ≤ q * 1000 := by positivity
    have e1 : pyInt (now * 1000) = ⌊now * 1000⌋ := if_pos ha
    have e2 : pyInt (q * 1000) = ⌊q * 1000⌋ := if_pos hb
    have espec : specElapsedMs now q = ⌊now * 1000 - q * 1000⌋ := by
      unfold specElapsedMs
      ring_nf
    rw [e1, e2, espec]
    have low : ⌊now * 1000 - q * 1000⌋ + ⌊q * 1000⌋ ≤ ⌊now * 1000⌋ := by
      rw [Int.le_floor]
      push_cast
      have := Int.floor_le (now * 1000 - q * 1000)
      have := Int.floor_le (q * 1000)
      linarith
    have high : ⌊now * 1000⌋ ≤ ⌊now * 1000 - q * 1000⌋ + ⌊q * 1000⌋ + 1 := by
      have h1 : now * 1000 - q * 1000 < ⌊now * 1000 - q * 1000⌋ + 1 :=
        Int.lt_floor_add_one _
      have h2 : q * 1000 < ⌊q * 1000⌋ + 1 := Int.lt_floor_add_one _
      have h3 : (⌊now * 1000⌋ : ℚ) ≤ now * 1000 := Int.floor_le _
      have h4 : (⌊now * 1000⌋ : ℚ) < ⌊now * 1000 - q * 1000⌋ + ⌊q * 1000⌋ + 2 := by
        linarith
      have h5 : ⌊now * 1000⌋ < ⌊now * 1000 - q * 1000⌋ + ⌊q * 1000⌋ + 2 := by
        exact_mod_cast h4
      omega
    omega

/-- C2 witness: a session parsed to start at epoch second 3 with current
time 1 — a negative elapsed time — is written verbatim as `"-2000"`, and the
record's present `name` is kept while the missing `student_id` defaults. -/
theorem C2_timeIn_witness :
    save_attendance (fun _ => some 3) 1
      ⟨Json.null, Json.obj [("K", Json.obj [("started", Json.str "T")])],
        false, false, false, false⟩
      (Json.str "K") "R" (Json.obj [("name", Json.str "Jane")]) "RFID" =
      ([Effect.setAttendance "K" "R"
          ⟨"RFID", Json.str "Jane", Json.str "Unknown", "-2000"⟩], true) := by
  have h := (C2_timeIn (fun _ => some 3) 1
    ⟨Json.null, Json.obj [("K", Json.obj [("started", Json.str "T")])],
      false, false, false, false⟩
    (Json.str "K") "R" [("name", Json.str "Jane")]
    [("started", Json.str "T")] "T" 3 "RFID" rfl rfl rfl rfl rfl).1
  rw [h]
  have h1 : pyInt ((1 : ℚ) * 1000) = 1000 := by norm_num [pyInt]
  have h2 : pyInt ((3 : ℚ) * 1000) = 3000 := by norm_num [pyInt]
  rw [h1, h2]
  rfl
